import Mathlib

/-!
Formal model of the plenty-events booking and rating subsystem: the Order and
Job status state machines, the rating submission, retraction, report and
response operations, and the aggregate-rating recomputation on vendor and
waiter profiles.  Numbers that the source stores as JavaScript numbers are
modelled as rationals; identifiers are natural numbers; timestamps are
natural numbers supplied as parameters.
-/

namespace PlentyEvents

/-- Order statuses, from the orderSchema status enum. -/
inductive OrderStatus
  | pending
  | confirmed
  | inProgress
  | completed
  | cancelled
  | refunded
  deriving DecidableEq, Repr

/-- Job statuses, from the jobSchema status enum. -/
inductive JobStatus
  | pending
  | accepted
  | declined
  | inProgress
  | completed
  | cancelled
  deriving DecidableEq, Repr

/-- User roles, from the userSchema role enum. -/
inductive Role
  | user
  | vendor
  | waiter
  | admin
  deriving DecidableEq, Repr

/-- The validTransitions table of updateOrderStatus in the vendor controller. -/
def orderValidTransitions : OrderStatus → List OrderStatus
  | .pending => [.confirmed, .cancelled]
  | .confirmed => [.inProgress, .cancelled]
  | .inProgress => [.completed, .cancelled]
  | .completed => []
  | .cancelled => []
  | .refunded => []

/-- The validTransitions table of updateJobStatus in the waiter controller. -/
def jobValidTransitions : JobStatus → List JobStatus
  | .pending => [.accepted, .declined]
  | .accepted => [.inProgress, .cancelled]
  | .declined => []
  | .inProgress => [.completed]
  | .completed => []
  | .cancelled => []

/-- The fields of a vendor profile that the booking and rating engines touch. -/
structure Vendor where
  id : Nat
  user : Nat
  averageRating : ℚ
  totalRatings : Nat
  totalBookings : Nat
  completedBookings : Nat
  deriving DecidableEq, Repr

/-- The fields of a waiter profile that the booking and rating engines touch. -/
structure Waiter where
  id : Nat
  user : Nat
  averageRating : ℚ
  attitudeRating : ℚ
  totalRatings : Nat
  totalJobs : Nat
  completedJobs : Nat
  deriving DecidableEq, Repr

/-- The fields of an Order that the state machine and rating engine touch. -/
structure Order where
  id : Nat
  user : Nat
  vendor : Nat
  status : OrderStatus
  isRated : Bool
  deriving DecidableEq, Repr

/-- The fields of a Job that the state machine and rating engine touch. -/
structure Job where
  id : Nat
  vendor : Nat
  waiter : Nat
  status : JobStatus
  respondedAt : Option Nat
  declineReason : Option String
  completedAt : Option Nat
  isRated : Bool
  deriving DecidableEq, Repr

/-- A response stored on a rating by the rated party. -/
structure RatingResponse where
  message : String
  respondedAt : Nat
  deriving DecidableEq, Repr

/-- A rating document, following ratingSchema: the vendor and waiter target
references and the order and job transaction references are all optional at
the schema level. -/
structure Rating where
  id : Nat
  reviewer : Nat
  vendor : Option Nat
  waiter : Option Nat
  order : Option Nat
  job : Option Nat
  rating : ℚ
  attitudeRating : Option ℚ
  isActive : Bool
  isReported : Bool
  reportReason : Option String
  response : Option RatingResponse
  deriving DecidableEq, Repr

/-- Errors of updateOrderStatus. -/
inductive OrderUpdateError
  | invalidTransition (current target : OrderStatus)
  deriving DecidableEq, Repr

/-- Errors of updateJobStatus. -/
inductive JobUpdateError
  | invalidTransition (current target : JobStatus)
  deriving DecidableEq, Repr

/-- Whether an Except value is a success. -/
def succeeds {ε α : Type} : Except ε α → Bool
  | .ok _ => true
  | .error _ => false

/-- Core of updateOrderStatus in the vendor controller, after the vendor and
order lookups: validate the requested transition against the fixed table,
set the new status, and on completion increment the owning vendor profile
completedBookings counter. -/
def updateOrderStatus (vendor : Vendor) (order : Order) (status : OrderStatus) :
    Except OrderUpdateError (Vendor × Order) :=
  if status ∈ orderValidTransitions order.status then
    let updatedOrder := { order with status := status }
    if status = OrderStatus.completed then
      Except.ok
        ({ vendor with completedBookings := vendor.completedBookings + 1 },
          updatedOrder)
    else
      Except.ok (vendor, updatedOrder)
  else
    Except.error (OrderUpdateError.invalidTransition order.status status)

/-- JavaScript truthiness of an optional request string: absent and the empty
string are falsy. -/
def truthyString : Option String → Bool
  | none => false
  | some s => !s.isEmpty

/-- Core of updateJobStatus in the waiter controller, after the waiter and job
lookups: validate the transition, set the status, stamp respondedAt on
accepted or declined (storing a supplied decline reason), and update the
waiter counters: completedJobs and totalJobs on completed, totalJobs on
accepted. -/
def updateJobStatus (waiter : Waiter) (job : Job) (status : JobStatus)
    (reqDeclineReason : Option String) (now : Nat) :
    Except JobUpdateError (Waiter × Job) :=
  if status ∈ jobValidTransitions job.status then
    let j1 := { job with status := status }
    let j2 :=
      if status = JobStatus.accepted ∨ status = JobStatus.declined then
        { j1 with
            respondedAt := some now,
            declineReason :=
              if status = JobStatus.declined ∧ truthyString reqDeclineReason then
                reqDeclineReason
              else
                j1.declineReason }
      else
        j1
    if status = JobStatus.completed then
      Except.ok
        ({ waiter with
            completedJobs := waiter.completedJobs + 1,
            totalJobs := waiter.totalJobs + 1 },
          { j2 with completedAt := some now })
    else if status = JobStatus.accepted then
      Except.ok ({ waiter with totalJobs := waiter.totalJobs + 1 }, j2)
    else
      Except.ok (waiter, j2)
  else
    Except.error (JobUpdateError.invalidTransition job.status status)

/-- Math.ceil at the tenths digit: the rounding used by updateRating,
Math.ceil(avg * 10) / 10. -/
def ceilTenths (x : ℚ) : ℚ := (⌈x * 10⌉ : ℚ) / 10

/-- The $match stage of the vendor aggregation: every rating referencing
the vendor, with no condition on isActive. -/
def vendorMatches (rs : List Rating) (i : Nat) : List Rating :=
  rs.filter (fun r => decide (r.vendor = some i))

/-- The $match stage of the waiter aggregation: every rating referencing
the waiter, with no condition on isActive. -/
def waiterMatches (rs : List Rating) (i : Nat) : List Rating :=
  rs.filter (fun r => decide (r.waiter = some i))

/-- The $avg accumulator over the rating field. -/
def meanScore (l : List Rating) : ℚ := (l.map Rating.rating).sum / (l.length : ℚ)

/-- The vendorSchema instance method updateRating: aggregate over ratings
whose vendor reference matches this vendor (the $match stage filters on the
vendor id only), average the rating field, round with Math.ceil at the
tenths digit, and store the average and the count; when the aggregation is
empty both fields reset to zero. -/
def Vendor.updateRating (ratings : List Rating) (v : Vendor) : Vendor :=
  let matched := vendorMatches ratings v.id
  if matched.length > 0 then
    { v with
        averageRating := ceilTenths (meanScore matched),
        totalRatings := matched.length }
  else
    { v with averageRating := 0, totalRatings := 0 }

/-- The waiterSchema instance method updateRating: same aggregation keyed on
the waiter reference, additionally averaging the attitudeRating field over
the matched ratings that carry one ($avg ignores missing values and yields
null when no matched rating carries the field, and Math.ceil(null * 10) / 10
evaluates to zero). -/
def Waiter.updateRating (ratings : List Rating) (w : Waiter) : Waiter :=
  let matched := waiterMatches ratings w.id
  if matched.length > 0 then
    let attitudes := matched.filterMap Rating.attitudeRating
    { w with
        averageRating := ceilTenths (meanScore matched),
        attitudeRating :=
          ceilTenths
            (if attitudes.length > 0 then attitudes.sum / (attitudes.length : ℚ) else 0),
        totalRatings := matched.length }
  else
    { w with averageRating := 0, attitudeRating := 0, totalRatings := 0 }

/-- Failures of the rating operations, named after the error taxonomy the
controllers realise with ErrorResponse. -/
inductive RatingError
  | notFound
  | notEligible
  | duplicateRating
  | invalidTarget
  | notAuthorized
  | alreadyReported
  | alreadyResponded
  deriving DecidableEq, Repr

/-- The stored collections the rating subsystem reads and writes. -/
structure MarketState where
  vendors : List Vendor
  waiters : List Waiter
  orders : List Order
  jobs : List Job
  ratings : List Rating
  deriving DecidableEq, Repr

/-- Vendor.findById. -/
def vendorById (vs : List Vendor) (i : Nat) : Option Vendor :=
  vs.find? (fun x => decide (x.id = i))

/-- Waiter.findById. -/
def waiterById (ws : List Waiter) (i : Nat) : Option Waiter :=
  ws.find? (fun x => decide (x.id = i))

/-- Order.findById. -/
def orderById (os : List Order) (i : Nat) : Option Order :=
  os.find? (fun x => decide (x.id = i))

/-- Job.findById. -/
def jobById (js : List Job) (i : Nat) : Option Job :=
  js.find? (fun x => decide (x.id = i))

/-- Rating.findById. -/
def ratingById (rs : List Rating) (i : Nat) : Option Rating :=
  rs.find? (fun x => decide (x.id = i))

/-- Persist an updated vendor document in place of the stored one. -/
def setVendor (vs : List Vendor) (v : Vendor) : List Vendor :=
  vs.map (fun x => if x.id = v.id then v else x)

/-- Persist an updated waiter document in place of the stored one. -/
def setWaiter (ws : List Waiter) (w : Waiter) : List Waiter :=
  ws.map (fun x => if x.id = w.id then w else x)

/-- The ratingSchema pre-save validation: must rate either a vendor or a
waiter, not both or neither. -/
def ratingTargetOk (r : Rating) : Bool :=
  !((r.vendor.isSome && r.waiter.isSome) || (!r.vendor.isSome && !r.waiter.isSome))

/-- Recompute the profiles referenced by a rating, as the ratingSchema
post-save hook does through Vendor.updateRating and Waiter.updateRating. -/
def recomputeTargets (st : MarketState) (r : Rating) : MarketState :=
  let vendors2 :=
    match r.vendor with
    | some vid =>
      match vendorById st.vendors vid with
      | some v => setVendor st.vendors (Vendor.updateRating st.ratings v)
      | none => st.vendors
    | none => st.vendors
  let waiters2 :=
    match r.waiter with
    | some wid =>
      match waiterById st.waiters wid with
      | some w => setWaiter st.waiters (Waiter.updateRating st.ratings w)
      | none => st.waiters
    | none => st.waiters
  { st with vendors := vendors2, waiters := waiters2 }

/-- Rating.create: the pre-save validation rejects a malformed target, then
the document is inserted and the post-save hook recomputes the rated
profiles. -/
def createRating (st : MarketState) (r : Rating) : Except RatingError MarketState :=
  if ratingTargetOk r then
    Except.ok (recomputeTargets { st with ratings := st.ratings ++ [r] } r)
  else
    Except.error RatingError.invalidTarget

/-- rating.save() on an existing document: the pre-save validation runs
again, the stored document is replaced, and the post-save hook recomputes
the rated profiles. -/
def saveRating (st : MarketState) (r : Rating) : Except RatingError MarketState :=
  if ratingTargetOk r then
    Except.ok
      (recomputeTargets
        { st with ratings := st.ratings.map (fun x => if x.id = r.id then r else x) } r)
  else
    Except.error RatingError.invalidTarget

/-- The eligibility lookup of rateVendor: Order.findOne for the reviewer,
the vendor and status completed. -/
def findCompletedOrder (orders : List Order) (userId vendorId : Nat) : Option Order :=
  orders.find?
    (fun o => decide (o.user = userId ∧ o.vendor = vendorId ∧ o.status = OrderStatus.completed))

/-- The duplicate lookup of rateVendor: Rating.findOne on the reviewer, the
vendor and the order, with no condition on isActive. -/
def duplicateVendorRating (ratings : List Rating) (reviewerId vendorId orderId : Nat) : Bool :=
  ratings.any
    (fun r =>
      decide (r.reviewer = reviewerId ∧ r.vendor = some vendorId ∧ r.order = some orderId))

/-- The rating fields taken from the request body. -/
structure RatingPayload where
  rating : ℚ
  attitudeRating : Option ℚ
  deriving DecidableEq, Repr

/-- The rating document rateVendor builds with Rating.create. -/
def mkVendorRating (reviewerId vendorId orderId newId : Nat) (payload : RatingPayload) :
    Rating :=
  { id := newId, reviewer := reviewerId, vendor := some vendorId, waiter := none,
    order := some orderId, job := none, rating := payload.rating,
    attitudeRating := none, isActive := true, isReported := false,
    reportReason := none, response := none }

/-- rateVendor in the vendor controller: look the vendor up, require a
completed order of the reviewer with this vendor, reject when any rating of
the reviewer for this vendor and that order exists, then create the rating
(which recomputes the vendor aggregates through the post-save hook) and mark
the order as rated. -/
def rateVendor (st : MarketState) (reviewerId vendorId : Nat) (payload : RatingPayload)
    (newId : Nat) : Except RatingError MarketState :=
  match vendorById st.vendors vendorId with
  | none => Except.error RatingError.notFound
  | some _ =>
    match findCompletedOrder st.orders reviewerId vendorId with
    | none => Except.error RatingError.notEligible
    | some existingOrder =>
      if duplicateVendorRating st.ratings reviewerId vendorId existingOrder.id then
        Except.error RatingError.duplicateRating
      else
        match createRating st (mkVendorRating reviewerId vendorId existingOrder.id newId payload) with
        | Except.error e => Except.error e
        | Except.ok st2 =>
          Except.ok
            { st2 with
                orders :=
                  st2.orders.map
                    (fun o => if o.id = existingOrder.id then { o with isRated := true } else o) }

/-- The eligibility lookup of rateWaiter: Job.findOne on the waiter, the
vendor profile of the requesting user and status completed.  The source
passes req.user.vendorProfile for the vendor condition; that property is
never set on the user document the auth middleware attaches, and the store
drops an undefined condition from the query, so the parameter below is an
Option and a missing profile leaves the vendor unconstrained. -/
def findCompletedJob (jobs : List Job) (waiterId : Nat) (vendorProfile : Option Nat) :
    Option Job :=
  jobs.find?
    (fun j =>
      decide
        (j.waiter = waiterId ∧
          (∀ vid ∈ vendorProfile, j.vendor = vid) ∧ j.status = JobStatus.completed))

/-- The duplicate lookup of rateWaiter: Rating.findOne on the reviewer, the
waiter and the job, with no condition on isActive. -/
def duplicateWaiterRating (ratings : List Rating) (reviewerId waiterId jobId : Nat) : Bool :=
  ratings.any
    (fun r =>
      decide (r.reviewer = reviewerId ∧ r.waiter = some waiterId ∧ r.job = some jobId))

/-- The rating document rateWaiter builds with Rating.create. -/
def mkWaiterRating (reviewerId waiterId jobId newId : Nat) (payload : RatingPayload) :
    Rating :=
  { id := newId, reviewer := reviewerId, vendor := none, waiter := some waiterId,
    order := none, job := some jobId, rating := payload.rating,
    attitudeRating := payload.attitudeRating, isActive := true, isReported := false,
    reportReason := none, response := none }

/-- rateWaiter in the waiter controller: look the waiter up, require a
completed job of the waiter matching the vendor-profile condition, reject
when any rating of the reviewer for this waiter and that job exists, then
create the rating (which recomputes the waiter aggregates through the
post-save hook) and mark the job as rated. -/
def rateWaiter (st : MarketState) (reviewerId : Nat) (vendorProfile : Option Nat)
    (waiterId : Nat) (payload : RatingPayload) (newId : Nat) :
    Except RatingError MarketState :=
  match waiterById st.waiters waiterId with
  | none => Except.error RatingError.notFound
  | some _ =>
    match findCompletedJob st.jobs waiterId vendorProfile with
    | none => Except.error RatingError.notEligible
    | some existingJob =>
      if duplicateWaiterRating st.ratings reviewerId waiterId existingJob.id then
        Except.error RatingError.duplicateRating
      else
        match createRating st (mkWaiterRating reviewerId waiterId existingJob.id newId payload) with
        | Except.error e => Except.error e
        | Except.ok st2 =>
          Except.ok
            { st2 with
                jobs :=
                  st2.jobs.map
                    (fun j => if j.id = existingJob.id then { j with isRated := true } else j) }

/-- deleteRating in the ratings controller: only the original reviewer or an
admin may retract; the record is kept and only its isActive flag is cleared
(rating.save, which also re-runs the target validation), and the referenced
vendor or waiter profile aggregates are recomputed.  The controller
recomputes once through the post-save hook and once explicitly; the second
recomputation reads the same stored ratings and is collapsed here. -/
def deleteRating (st : MarketState) (actorId : Nat) (actorRole : Role) (ratingId : Nat) :
    Except RatingError MarketState :=
  match ratingById st.ratings ratingId with
  | none => Except.error RatingError.notFound
  | some rating =>
    if actorRole = Role.admin ∨ rating.reviewer = actorId then
      saveRating st { rating with isActive := false }
    else
      Except.error RatingError.notAuthorized

/-- reportRating in the ratings controller: refuse when the rating is
already flagged, otherwise set the flag and store the supplied reason,
falling back to a fixed message when the reason is absent or empty. -/
def reportRating (st : MarketState) (ratingId : Nat) (reason : Option String) :
    Except RatingError MarketState :=
  match ratingById st.ratings ratingId with
  | none => Except.error RatingError.notFound
  | some rating =>
    if rating.isReported then
      Except.error RatingError.alreadyReported
    else
      saveRating st
        { rating with
            isReported := true,
            reportReason :=
              if truthyString reason then reason else some (r"Inappropriate content") }

/-- respondToRating in the ratings controller: only the user behind the
rated vendor or waiter profile may respond, a rating with a non-empty
response message cannot be responded to again, and the response is stored
with its timestamp. -/
def respondToRating (st : MarketState) (userId : Nat) (userRole : Role) (ratingId : Nat)
    (message : String) (now : Nat) : Except RatingError MarketState :=
  match ratingById st.ratings ratingId with
  | none => Except.error RatingError.notFound
  | some rating =>
    let c1 :=
      if rating.vendor.isSome ∧ userRole = Role.vendor then
        (st.vendors.find?
          (fun v => decide (some v.id = rating.vendor ∧ v.user = userId))).isSome
      else
        false
    let canRespond :=
      if rating.waiter.isSome ∧ userRole = Role.waiter then
        (st.waiters.find?
          (fun w => decide (some w.id = rating.waiter ∧ w.user = userId))).isSome
      else
        c1
    if !canRespond then
      Except.error RatingError.notAuthorized
    else
      if (match rating.response with
          | some resp => !resp.message.isEmpty
          | none => false) then
        Except.error RatingError.alreadyResponded
      else
        saveRating st { rating with response := some { message := message, respondedAt := now } }

/-- One request against the rating subsystem. -/
inductive MarketOp
  | rateVendorOp (reviewerId vendorId : Nat) (payload : RatingPayload) (newId : Nat)
  | rateWaiterOp (reviewerId : Nat) (vendorProfile : Option Nat) (waiterId : Nat)
      (payload : RatingPayload) (newId : Nat)
  | deleteRatingOp (actorId : Nat) (actorRole : Role) (ratingId : Nat)
  | reportRatingOp (ratingId : Nat) (reason : Option String)
  | respondToRatingOp (userId : Nat) (userRole : Role) (ratingId : Nat)
      (message : String) (now : Nat)
  deriving DecidableEq, Repr

/-- Dispatch one rating-subsystem request. -/
def applyOp (st : MarketState) : MarketOp → Except RatingError MarketState
  | .rateVendorOp reviewerId vendorId payload newId => rateVendor st reviewerId vendorId payload newId
  | .rateWaiterOp reviewerId vendorProfile waiterId payload newId =>
      rateWaiter st reviewerId vendorProfile waiterId payload newId
  | .deleteRatingOp actorId actorRole ratingId => deleteRating st actorId actorRole ratingId
  | .reportRatingOp ratingId reason => reportRating st ratingId reason
  | .respondToRatingOp userId userRole ratingId message now =>
      respondToRating st userId userRole ratingId message now

/-- Exactly one of the two target references of a rating is set, and the
transaction reference is of the matching type. -/
def ratingWF (r : Rating) : Prop :=
  (r.vendor.isSome ∧ r.waiter = none ∧ r.order.isSome ∧ r.job = none) ∨
  (r.waiter.isSome ∧ r.vendor = none ∧ r.job.isSome ∧ r.order = none)

/-- Every stored rating is well formed. -/
def ratingsWF (st : MarketState) : Prop :=
  ∀ r ∈ st.ratings, ratingWF r

/-- The normal lifecycle of a job: pending to accepted to in-progress to
completed, carried out through updateJobStatus. -/
def jobNormalPath (w : Waiter) (j : Job) (t1 t2 t3 : Nat) :
    Except JobUpdateError (Waiter × Job) :=
  match updateJobStatus w j JobStatus.accepted none t1 with
  | Except.error e => Except.error e
  | Except.ok (w1, j1) =>
    match updateJobStatus w1 j1 JobStatus.inProgress none t2 with
    | Except.error e => Except.error e
    | Except.ok (w2, j2) => updateJobStatus w2 j2 JobStatus.completed none t3

instance instDecidableEqExcept {ε α : Type} [DecidableEq ε] [DecidableEq α] :
    DecidableEq (Except ε α)
  | Except.ok a, Except.ok b =>
    if h : a = b then Decidable.isTrue (congrArg Except.ok h)
    else Decidable.isFalse (fun hc => h (Except.ok.inj hc))
  | Except.error a, Except.error b =>
    if h : a = b then Decidable.isTrue (congrArg Except.error h)
    else Decidable.isFalse (fun hc => h (Except.error.inj hc))
  | Except.ok _, Except.error _ => Decidable.isFalse (fun hc => Except.noConfusion hc)
  | Except.error _, Except.ok _ => Decidable.isFalse (fun hc => Except.noConfusion hc)

/-- A vendor profile with fresh counters, used in concrete scenarios. -/
def vQ : Vendor :=
  { id := 1, user := 2, averageRating := 0, totalRatings := 0,
    totalBookings := 1, completedBookings := 1 }

/-- A pending order of user 9 with vendor 1. -/
def oPend : Order := { id := 4, user := 9, vendor := 1, status := OrderStatus.pending, isRated := false }

/-- An in-progress order of user 9 with vendor 1. -/
def oInProg : Order :=
  { id := 4, user := 9, vendor := 1, status := OrderStatus.inProgress, isRated := false }

/-- A completed order of user 9 with vendor 1. -/
def oQ : Order := { id := 4, user := 9, vendor := 1, status := OrderStatus.completed, isRated := false }

/-- A waiter profile with fresh counters. -/
def wQ : Waiter :=
  { id := 1, user := 11, averageRating := 0, attitudeRating := 0, totalRatings := 0,
    totalJobs := 0, completedJobs := 0 }

/-- A pending job for waiter 1. -/
def jQ : Job :=
  { id := 5, vendor := 2, waiter := 1, status := JobStatus.pending, respondedAt := none,
    declineReason := none, completedAt := none, isRated := false }

/-- The waiter counters after the normal job path starting from wQ. -/
def wQFinal : Waiter := { wQ with totalJobs := 2, completedJobs := 1 }

/-- The job record after the normal path starting from jQ with times 1, 2, 3. -/
def jQFinal : Job :=
  { jQ with status := JobStatus.completed, respondedAt := some 1, completedAt := some 3 }

/-- A five-star rating payload. -/
def payQ : RatingPayload := { rating := 5, attitudeRating := none }

/-- The rating document created by rateVendor for reviewer 9, vendor 1,
order 4, with id 6 and payload payQ. -/
def rQ : Rating := mkVendorRating 9 1 4 6 payQ

/-- The same rating after retraction. -/
def rQoff : Rating := { rQ with isActive := false }

/-- A store holding vendor 1 and a completed order of user 9 with it, and no
ratings yet. -/
def stC6 : MarketState :=
  { vendors := [vQ], waiters := [], orders := [oQ], jobs := [], ratings := [] }

/-- The store after rateVendor stC6 9 1 payQ 6. -/
def stC6b : MarketState :=
  { vendors := [{ vQ with averageRating := 5, totalRatings := 1 }], waiters := [],
    orders := [{ oQ with isRated := true }], jobs := [], ratings := [rQ] }

/-- The store after the reviewer retracts rating 6 from stC6b: only the
isActive flag changes, and the recomputation still counts the retracted
rating, so the vendor aggregates stay put. -/
def stC6c : MarketState := { stC6b with ratings := [rQoff] }

/-- A store with vendor 1 and no orders at all. -/
def stV0 : MarketState :=
  { vendors := [vQ], waiters := [], orders := [], jobs := [], ratings := [] }

/-- A store holding waiter 1 and a completed job of that waiter with vendor
profile 77, while no vendor profile of user 9 exists. -/
def stWB : MarketState :=
  { vendors := [], waiters := [wQ], orders := [],
    jobs := [{ id := 3, vendor := 77, waiter := 1, status := JobStatus.completed,
               respondedAt := none, declineReason := none, completedAt := none,
               isRated := false }],
    ratings := [] }

/-- A well-formed waiter rating whose referenced profiles are absent from
the store, so retracting it leaves the profile lists untouched. -/
def rGood : Rating :=
  { id := 6, reviewer := 9, vendor := some 1, waiter := none, order := some 4, job := none,
    rating := 5, attitudeRating := none, isActive := true, isReported := false,
    reportReason := none, response := none }

/-- A malformed rating with neither target set. -/
def rBad : Rating :=
  { id := 7, reviewer := 9, vendor := none, waiter := none, order := none, job := none,
    rating := 5, attitudeRating := none, isActive := true, isReported := false,
    reportReason := none, response := none }

/-- A store holding only the rating rGood. -/
def stOne : MarketState :=
  { vendors := [], waiters := [], orders := [], jobs := [], ratings := [rGood] }

/-- The store after the reviewer retracts rating 6 from stOne. -/
def stOneDel : MarketState := { stOne with ratings := [{ rGood with isActive := false }] }

/-- Ratings 4 and 5 and 4 on waiter 1 for three different completed jobs. -/
def rW4a : Rating :=
  { id := 1, reviewer := 9, vendor := none, waiter := some 1, order := none, job := some 21,
    rating := 4, attitudeRating := none, isActive := true, isReported := false,
    reportReason := none, response := none }

/-- A five-star rating on waiter 1. -/
def rW5b : Rating := { rW4a with id := 2, job := some 22, rating := 5 }

/-- A second four-star rating on waiter 1. -/
def rW4c : Rating := { rW4a with id := 3, job := some 23, rating := 4 }

/-- A vendor profile with stale aggregates, to be recomputed. -/
def vC2 : Vendor :=
  { id := 1, user := 2, averageRating := 4, totalRatings := 1,
    totalBookings := 3, completedBookings := 2 }

/-- A retracted five-star rating on vendor 1. -/
def rInactiveFive : Rating :=
  { id := 6, reviewer := 9, vendor := some 1, waiter := none, order := some 4, job := none,
    rating := 5, attitudeRating := none, isActive := false, isReported := false,
    reportReason := none, response := none }

end PlentyEvents

namespace PlentyEvents

theorem ceilTenths_eq (x : ℚ) (n : ℤ) (h1 : (n : ℚ) - 1 < x * 10) (h2 : x * 10 ≤ (n : ℚ)) :
    ceilTenths x = (n : ℚ) / 10 := by
  unfold ceilTenths
  rw [show ⌈x * 10⌉ = n from Int.ceil_eq_iff.mpr ⟨h1, h2⟩]

theorem ceilTenths_five : ceilTenths (5 : ℚ) = 5 := by
  rw [ceilTenths_eq (5 : ℚ) 50 (by norm_num) (by norm_num)]
  norm_num

theorem ceilTenths_zero : ceilTenths (0 : ℚ) = 0 := by
  rw [ceilTenths_eq (0 : ℚ) 0 (by norm_num) (by norm_num)]
  norm_num

/-- Finding by key after replacing the found element: the lookup returns the
replacement. -/
theorem findKeyReplace {α : Type} (keyf : α → Nat) (l : List α) (i : Nat) (a y : α)
    (h : l.find? (fun x => decide (keyf x = i)) = some a) (hy : keyf y = i) :
    (l.map (fun x => if keyf x = keyf y then y else x)).find? (fun x => decide (keyf x = i)) =
      some y := by
  induction l with
  | nil => simp [List.find?] at h
  | cons b t ih =>
    by_cases hb : keyf b = i
    · rw [List.map_cons, if_pos (by rw [hb, hy])]
      exact List.find?_cons_of_pos _ (by simpa using hy)
    · rw [List.find?_cons_of_neg _ (by simpa using hb)] at h
      rw [List.map_cons, if_neg (by rw [hy]; exact hb)]
      exact (List.find?_cons_of_neg _ (by simpa using hb)).trans (ih h)

/-- Finding by key after a key-preserving conditional update: the lookup
returns the updated found element. -/
theorem findKeyMap {α : Type} (keyf : α → Nat) (f : α → α) (l : List α) (i : Nat) (a : α)
    (h : l.find? (fun x => decide (keyf x = i)) = some a)
    (hk : ∀ x, keyf (f x) = keyf x) :
    (l.map (fun x => if keyf x = i then f x else x)).find? (fun x => decide (keyf x = i)) =
      some (f a) := by
  induction l with
  | nil => simp [List.find?] at h
  | cons b t ih =>
    by_cases hb : keyf b = i
    · rw [List.find?_cons_of_pos _ (by simpa using hb)] at h
      cases h
      rw [List.map_cons, if_pos hb]
      exact List.find?_cons_of_pos _ (by simp [hk, hb])
    · rw [List.find?_cons_of_neg _ (by simpa using hb)] at h
      rw [List.map_cons, if_neg hb]
      exact (List.find?_cons_of_neg _ (by simpa using hb)).trans (ih h)

/-- A find? over a mapped list when the map does not change the predicate. -/
theorem findMapInvariant {α : Type} (p : α → Bool) (g : α → α) (l : List α)
    (hpg : ∀ x, p (g x) = p x) :
    (l.map g).find? p = (l.find? p).map g := by
  induction l with
  | nil => rfl
  | cons b t ih =>
    cases hb : p b with
    | true =>
      rw [List.map_cons, List.find?_cons_of_pos _ (by rw [hpg]; exact hb),
        List.find?_cons_of_pos _ hb]
      rfl
    | false =>
      rw [List.map_cons, List.find?_cons_of_neg _ (by simp [hpg, hb]),
        List.find?_cons_of_neg _ (by simp [hb])]
      exact ih

/-- C1: an Order or Job status update succeeds exactly when the requested
status is in the fixed allowed-successor set of the current status as given
by the transition tables, any other requested move fails with the
invalid-transition error, and no successor set of the order table contains
the refunded status. -/
theorem orderJobTransitionTables :
    (∀ (v : Vendor) (o : Order) (s : OrderStatus),
      succeeds (updateOrderStatus v o s) = true ↔ s ∈ orderValidTransitions o.status)
    ∧ (∀ (v : Vendor) (o : Order) (s : OrderStatus),
        s ∉ orderValidTransitions o.status →
          updateOrderStatus v o s =
            Except.error (OrderUpdateError.invalidTransition o.status s))
    ∧ (∀ (w : Waiter) (j : Job) (s : JobStatus) (reason : Option String) (now : Nat),
        succeeds (updateJobStatus w j s reason now) = true ↔ s ∈ jobValidTransitions j.status)
    ∧ (∀ (w : Waiter) (j : Job) (s : JobStatus) (reason : Option String) (now : Nat),
        s ∉ jobValidTransitions j.status →
          updateJobStatus w j s reason now =
            Except.error (JobUpdateError.invalidTransition j.status s))
    ∧ (∀ s : OrderStatus, OrderStatus.refunded ∉ orderValidTransitions s) := by
  refine ⟨?_, ?_, ?_, ?_, ?_⟩
  · intro v o s
    by_cases h : s ∈ orderValidTransitions o.status
    · simp only [updateOrderStatus]
      rw [if_pos h]
      simp only [h, iff_true]
      split <;> rfl
    · simp only [updateOrderStatus]
      rw [if_neg h]
      simp [succeeds, h]
  · intro v o s h
    simp only [updateOrderStatus]
    rw [if_neg h]
  · intro w j s reason now
    by_cases h : s ∈ jobValidTransitions j.status
    · simp only [updateJobStatus]
      rw [if_pos h]
      simp only [h, iff_true]
      split
      · rfl
      · split <;> rfl
    · simp only [updateJobStatus]
      rw [if_neg h]
      simp [succeeds, h]
  · intro w j s reason now h
    simp only [updateJobStatus]
    rw [if_neg h]
  · intro s
    cases s <;> decide

/-- C1 witness: from a pending order, the jump straight to completed is
outside the table and is rejected with the invalid-transition error. -/
theorem orderJobTransitionTablesWitness :
    OrderStatus.completed ∉ orderValidTransitions oPend.status ∧
    updateOrderStatus vQ oPend OrderStatus.completed =
      Except.error (OrderUpdateError.invalidTransition oPend.status OrderStatus.completed) :=
  ⟨by decide, orderJobTransitionTables.2.1 vQ oPend OrderStatus.completed (by decide)⟩

/-- C5: a successful transition into completed increments the vendor
completedBookings counter by exactly one, any other successful transition
leaves it unchanged, and every transition attempt out of a completed order
fails, so the increment can happen at most once per order. -/
theorem completedBookingsOnce :
    (∀ (v : Vendor) (o : Order) (v2 : Vendor) (o2 : Order),
      updateOrderStatus v o OrderStatus.completed = Except.ok (v2, o2) →
        v2.completedBookings = v.completedBookings + 1)
    ∧ (∀ (v : Vendor) (o : Order) (s : OrderStatus) (v2 : Vendor) (o2 : Order),
        s ≠ OrderStatus.completed →
          updateOrderStatus v o s = Except.ok (v2, o2) → v2 = v)
    ∧ (∀ (v : Vendor) (o : Order) (s : OrderStatus),
        o.status = OrderStatus.completed →
          updateOrderStatus v o s =
            Except.error (OrderUpdateError.invalidTransition OrderStatus.completed s)) := by
  refine ⟨?_, ?_, ?_⟩
  · intro v o v2 o2 h
    unfold updateOrderStatus at h
    split at h
    · rw [if_pos rfl] at h
      cases h
      rfl
    · cases h
  · intro v o s v2 o2 hs h
    simp only [updateOrderStatus] at h
    rw [if_neg hs] at h
    split at h
    · cases h
      rfl
    · cases h
  · intro v o s h
    simp [updateOrderStatus, h, orderValidTransitions]

/-- C5 witness: completing an in-progress order increments the counter. -/
theorem completedBookingsOnceWitness :
    updateOrderStatus vQ oInProg OrderStatus.completed =
      Except.ok ({ vQ with completedBookings := vQ.completedBookings + 1 },
        { oInProg with status := OrderStatus.completed }) ∧
    ({ vQ with completedBookings := vQ.completedBookings + 1 } : Vendor).completedBookings =
      vQ.completedBookings + 1 :=
  ⟨by decide,
    completedBookingsOnce.1 vQ oInProg
      { vQ with completedBookings := vQ.completedBookings + 1 }
      { oInProg with status := OrderStatus.completed } (by decide)⟩

/-- C4 counterexample: a job taken through the normal path pending to
accepted to in-progress to completed raises the waiter totalJobs counter
from 0 to 2, not by exactly 1: updateJobStatus increments it both on the
transition into accepted and again on the transition into completed. -/
theorem jobTotalJobsTwice :
    wQ.totalJobs = 0 ∧
    jobNormalPath wQ jQ 1 2 3 = Except.ok (wQFinal, jQFinal) ∧
    wQFinal.totalJobs = 2 := by
  refine ⟨rfl, by decide, rfl⟩

/-- C4 as amended: through the normal path the waiter totalJobs counter
increases by exactly 2, incremented on the transition into accepted and
again on the transition into completed, while completedJobs increases by 1
and completedAt is stamped on completion; transitions into accepted or
declined stamp respondedAt, a declined transition stores a supplied
non-empty decline reason, and no successful transition other than those
into accepted or completed changes the waiter record. -/
theorem jobCounterEffects :
    (∀ (w : Waiter) (j : Job) (t1 t2 t3 : Nat),
      j.status = JobStatus.pending →
        jobNormalPath w j t1 t2 t3 =
          Except.ok
            ({ w with totalJobs := w.totalJobs + 2, completedJobs := w.completedJobs + 1 },
              { j with status := JobStatus.completed, respondedAt := some t1,
                       completedAt := some t3 }))
    ∧ (∀ (w : Waiter) (j : Job) (reason : Option String) (now : Nat),
        j.status = JobStatus.pending →
          updateJobStatus w j JobStatus.accepted reason now =
            Except.ok ({ w with totalJobs := w.totalJobs + 1 },
              { j with status := JobStatus.accepted, respondedAt := some now }))
    ∧ (∀ (w : Waiter) (j : Job) (reason : Option String) (now : Nat),
        j.status = JobStatus.inProgress →
          updateJobStatus w j JobStatus.completed reason now =
            Except.ok
              ({ w with totalJobs := w.totalJobs + 1, completedJobs := w.completedJobs + 1 },
                { j with status := JobStatus.completed, completedAt := some now }))
    ∧ (∀ (w : Waiter) (j : Job) (reason : String) (now : Nat),
        j.status = JobStatus.pending → reason.isEmpty = false →
          updateJobStatus w j JobStatus.declined (some reason) now =
            Except.ok (w,
              { j with status := JobStatus.declined, respondedAt := some now,
                       declineReason := some reason }))
    ∧ (∀ (w : Waiter) (j : Job) (s : JobStatus) (reason : Option String) (now : Nat)
        (w2 : Waiter) (j2 : Job),
        s ≠ JobStatus.accepted → s ≠ JobStatus.completed →
          updateJobStatus w j s reason now = Except.ok (w2, j2) → w2 = w) := by
  refine ⟨?_, ?_, ?_, ?_, ?_⟩
  · intro w j t1 t2 t3 h
    obtain ⟨jid, jv, jw, js, jr, jd, jc, jir⟩ := j
    simp only at h
    subst h
    rfl
  · intro w j reason now h
    obtain ⟨jid, jv, jw, js, jr, jd, jc, jir⟩ := j
    simp only at h
    subst h
    rfl
  · intro w j reason now h
    obtain ⟨jid, jv, jw, js, jr, jd, jc, jir⟩ := j
    simp only at h
    subst h
    rfl
  · intro w j reason now h hr
    obtain ⟨jid, jv, jw, js, jr, jd, jc, jir⟩ := j
    simp only at h
    subst h
    simp [updateJobStatus, jobValidTransitions, truthyString, hr]
  · intro w j s reason now w2 j2 hs1 hs2 h
    simp only [updateJobStatus] at h
    rw [if_neg hs2, if_neg hs1] at h
    split at h
    · cases h
      rfl
    · cases h

/-- C4 witness: accepting a pending job increments totalJobs by one and
stamps respondedAt. -/
theorem jobCounterEffectsWitness :
    jQ.status = JobStatus.pending ∧
    updateJobStatus wQ jQ JobStatus.accepted none 7 =
      Except.ok ({ wQ with totalJobs := wQ.totalJobs + 1 },
        { jQ with status := JobStatus.accepted, respondedAt := some 7 }) :=
  ⟨rfl, jobCounterEffects.2.1 wQ jQ none 7 rfl⟩

/-- A ceiling-at-tenths evaluation helper: bracket the scaled value between
consecutive integers and normalise the quotient. -/
theorem ceilTenths_eq_of (x y : ℚ) (n : ℤ) (h1 : (n : ℚ) - 1 < x * 10) (h2 : x * 10 ≤ (n : ℚ))
    (hy : (n : ℚ) / 10 = y) : ceilTenths x = y := by
  rw [ceilTenths_eq x n h1 h2, hy]

/-- C2: the recomputation is wrong on retracted ratings.  The claim and the
spec exclude ratings with isActive = false, but the aggregation of
Vendor.updateRating matches on the vendor reference only: with a single
retracted five-star rating the code stores averageRating 5 and
totalRatings 1 where the claim requires both fields to reset to zero. -/
theorem inactiveRatingStillCounted :
    rInactiveFive.isActive = false ∧
    (Vendor.updateRating [rInactiveFive] vC2).averageRating = 5 ∧
    (Vendor.updateRating [rInactiveFive] vC2).totalRatings = 1 := by
  refine ⟨rfl, ?_, ?_⟩
  · simp +decide [Vendor.updateRating, vendorMatches, meanScore, vC2, rInactiveFive]
    exact ceilTenths_eq_of _ _ 50 (by norm_num) (by norm_num) (by norm_num)
  · simp +decide [Vendor.updateRating, vendorMatches, vC2, rInactiveFive]

/-- C7: the scenario values of the ceiling rounding.  Ratings 4 and 5 give
a stored average of 4.5, ratings 4 and 4 and 5 give 4.4 (the mean 13/3
rounded up at the tenths digit, not 4.3 as round-half-up would give), and in
general the stored average of a rated waiter is the ceiling-to-one-decimal
of the mean of the matched ratings. -/
theorem averageCeilingScenario :
    ((Waiter.updateRating [rW4a, rW5b] wQ).averageRating = 9 / 2)
    ∧ ((Waiter.updateRating [rW4a, rW4c, rW5b] wQ).averageRating = 22 / 5)
    ∧ ((Waiter.updateRating [rW4a, rW4c, rW5b] wQ).averageRating ≠ 43 / 10)
    ∧ (∀ (rs : List Rating) (w : Waiter),
        (waiterMatches rs w.id).length > 0 →
          (Waiter.updateRating rs w).averageRating =
            ceilTenths (meanScore (waiterMatches rs w.id))) := by
  have h45 : (Waiter.updateRating [rW4a, rW5b] wQ).averageRating = 9 / 2 := by
    simp +decide [Waiter.updateRating, waiterMatches, meanScore, wQ, rW4a, rW5b]
    exact ceilTenths_eq_of _ _ 45 (by norm_num) (by norm_num) (by norm_num)
  have h445 : (Waiter.updateRating [rW4a, rW4c, rW5b] wQ).averageRating = 22 / 5 := by
    simp +decide [Waiter.updateRating, waiterMatches, meanScore, wQ, rW4a, rW4c, rW5b]
    exact ceilTenths_eq_of _ _ 44 (by norm_num) (by norm_num) (by norm_num)
  refine ⟨h45, h445, ?_, ?_⟩
  · rw [h445]
    norm_num
  · intro rs w h
    simp only [Waiter.updateRating]
    rw [if_pos h]

/-- C7 witness: the general ceiling-of-mean clause applied to the two
ratings 4 and 5 of waiter 1. -/
theorem averageCeilingScenarioWitness :
    (waiterMatches [rW4a, rW5b] wQ.id).length > 0 ∧
    (Waiter.updateRating [rW4a, rW5b] wQ).averageRating =
      ceilTenths (meanScore (waiterMatches [rW4a, rW5b] wQ.id)) :=
  ⟨by decide, averageCeilingScenario.2.2.2 [rW4a, rW5b] wQ (by decide)⟩

/-- C10: recomputation is idempotent.  Running updateRating twice over the
same stored ratings leaves the vendor or waiter profile exactly as one run
does, because the aggregation depends only on the profile id, which
updateRating preserves. -/
theorem updateRatingIdempotent :
    ∀ (rs : List Rating) (v : Vendor) (w : Waiter),
      Vendor.updateRating rs (Vendor.updateRating rs v) = Vendor.updateRating rs v ∧
      Waiter.updateRating rs (Waiter.updateRating rs w) = Waiter.updateRating rs w := by
  intro rs v w
  refine ⟨?_, ?_⟩
  · by_cases h : (vendorMatches rs v.id).length > 0
    · have e1 : Vendor.updateRating rs v =
          { v with
              averageRating := ceilTenths (meanScore (vendorMatches rs v.id)),
              totalRatings := (vendorMatches rs v.id).length } := by
        simp only [Vendor.updateRating]
        rw [if_pos h]
      rw [e1]
      simp only [Vendor.updateRating]
      rw [if_pos h]
    · have e1 : Vendor.updateRating rs v =
          { v with averageRating := 0, totalRatings := 0 } := by
        simp only [Vendor.updateRating]
        rw [if_neg h]
      rw [e1]
      simp only [Vendor.updateRating]
      rw [if_neg h]
  · by_cases h : (waiterMatches rs w.id).length > 0
    · have e1 : Waiter.updateRating rs w =
          { w with
              averageRating := ceilTenths (meanScore (waiterMatches rs w.id)),
              attitudeRating :=
                ceilTenths
                  (if ((waiterMatches rs w.id).filterMap Rating.attitudeRating).length > 0 then
                    ((waiterMatches rs w.id).filterMap Rating.attitudeRating).sum /
                      (((waiterMatches rs w.id).filterMap Rating.attitudeRating).length : ℚ)
                  else 0),
              totalRatings := (waiterMatches rs w.id).length } := by
        simp only [Waiter.updateRating]
        rw [if_pos h]
      rw [e1]
      simp only [Waiter.updateRating]
      rw [if_pos h]
    · have e1 : Waiter.updateRating rs w =
          { w with averageRating := 0, attitudeRating := 0, totalRatings := 0 } := by
        simp only [Waiter.updateRating]
        rw [if_neg h]
      rw [e1]
      simp only [Waiter.updateRating]
      rw [if_neg h]

theorem recomputeTargets_ratings (st : MarketState) (r : Rating) :
    (recomputeTargets st r).ratings = st.ratings := rfl

theorem recomputeTargets_orders (st : MarketState) (r : Rating) :
    (recomputeTargets st r).orders = st.orders := rfl

theorem recomputeTargets_jobs (st : MarketState) (r : Rating) :
    (recomputeTargets st r).jobs = st.jobs := rfl

theorem memOfFind {α : Type} {p : α → Bool} {l : List α} {a : α}
    (h : l.find? p = some a) : a ∈ l :=
  List.mem_of_find?_eq_some h

theorem findId_eq {α : Type} (keyf : α → Nat) {l : List α} {i : Nat} {a : α}
    (h : l.find? (fun x => decide (keyf x = i)) = some a) : keyf a = i := by
  have h2 := List.find?_some h
  exact of_decide_eq_true h2

theorem createRating_ratings {st : MarketState} {r : Rating} {st2 : MarketState}
    (h : createRating st r = Except.ok st2) : st2.ratings = st.ratings ++ [r] := by
  unfold createRating at h
  split at h
  · cases h
    rfl
  · cases h

theorem saveRating_ratings {st : MarketState} {r : Rating} {st2 : MarketState}
    (h : saveRating st r = Except.ok st2) :
    st2.ratings = st.ratings.map (fun x => if x.id = r.id then r else x) := by
  unfold saveRating at h
  split at h
  · cases h
    rfl
  · cases h

theorem ratingsWF_save {st : MarketState} {r2 : Rating} {st2 : MarketState}
    (hwf : ratingsWF st) (hr2 : ratingWF r2) (h : saveRating st r2 = Except.ok st2) :
    ratingsWF st2 := by
  intro x hx
  rw [saveRating_ratings h] at hx
  rcases List.mem_map.mp hx with ⟨y, hy, hxy⟩
  subst hxy
  by_cases hc : y.id = r2.id
  · rw [if_pos hc]
    exact hr2
  · rw [if_neg hc]
    exact hwf y hy

theorem ratingsWF_create {st : MarketState} {r : Rating} {st2 : MarketState}
    (hwf : ratingsWF st) (hr : ratingWF r) (h : createRating st r = Except.ok st2) :
    ratingsWF st2 := by
  intro x hx
  rw [createRating_ratings h] at hx
  rcases List.mem_append.mp hx with hx2 | hx2
  · exact hwf x hx2
  · rw [List.mem_singleton.mp hx2]
    exact hr

theorem vendorUpdate_id (rs : List Rating) (v : Vendor) :
    (Vendor.updateRating rs v).id = v.id := by
  simp only [Vendor.updateRating]
  split <;> rfl

theorem waiterUpdate_id (rs : List Rating) (w : Waiter) :
    (Waiter.updateRating rs w).id = w.id := by
  simp only [Waiter.updateRating]
  split <;> rfl

/-- C9: every rating reachable through the exposed rating operations has
exactly one of the vendor and waiter targets set, with a transaction
reference of the matching type (vendor with order, waiter with job), and a
write violating the exactly-one rule is rejected at save time with the
invalid-target error. -/
theorem ratingTargetInvariant :
    (∀ (st : MarketState) (op : MarketOp) (st2 : MarketState),
      ratingsWF st → applyOp st op = Except.ok st2 → ratingsWF st2)
    ∧ (∀ (st : MarketState) (r : Rating),
        ratingTargetOk r = false →
          createRating st r = Except.error RatingError.invalidTarget) := by
  constructor
  · intro st op st2 hwf hok
    cases op with
    | rateVendorOp rid vid p nid =>
      simp only [applyOp] at hok
      unfold rateVendor at hok
      cases hv : vendorById st.vendors vid with
      | none =>
        rw [hv] at hok
        exact Except.noConfusion hok
      | some v =>
        rw [hv] at hok
        cases ho : findCompletedOrder st.orders rid vid with
        | none =>
          rw [ho] at hok
          exact Except.noConfusion hok
        | some o =>
          rw [ho] at hok
          simp only at hok
          split at hok
          · exact Except.noConfusion hok
          · cases hcr : createRating st (mkVendorRating rid vid o.id nid p) with
            | error e =>
              rw [hcr] at hok
              exact Except.noConfusion hok
            | ok st3 =>
              rw [hcr] at hok
              simp only at hok
              cases hok
              have hr : ratingWF (mkVendorRating rid vid o.id nid p) :=
                Or.inl ⟨rfl, rfl, rfl, rfl⟩
              have hwf3 := ratingsWF_create hwf hr hcr
              exact fun x hx => hwf3 x hx
    | rateWaiterOp rid vp wid p nid =>
      simp only [applyOp] at hok
      unfold rateWaiter at hok
      cases hv : waiterById st.waiters wid with
      | none =>
        rw [hv] at hok
        exact Except.noConfusion hok
      | some w =>
        rw [hv] at hok
        cases ho : findCompletedJob st.jobs wid vp with
        | none =>
          rw [ho] at hok
          exact Except.noConfusion hok
        | some j =>
          rw [ho] at hok
          simp only at hok
          split at hok
          · exact Except.noConfusion hok
          · cases hcr : createRating st (mkWaiterRating rid wid j.id nid p) with
            | error e =>
              rw [hcr] at hok
              exact Except.noConfusion hok
            | ok st3 =>
              rw [hcr] at hok
              simp only at hok
              cases hok
              have hr : ratingWF (mkWaiterRating rid wid j.id nid p) :=
                Or.inr ⟨rfl, rfl, rfl, rfl⟩
              have hwf3 := ratingsWF_create hwf hr hcr
              exact fun x hx => hwf3 x hx
    | deleteRatingOp aid role rid =>
      simp only [applyOp] at hok
      unfold deleteRating at hok
      cases hr : ratingById st.ratings rid with
      | none =>
        rw [hr] at hok
        exact Except.noConfusion hok
      | some rating =>
        rw [hr] at hok
        simp only at hok
        split at hok
        · refine ratingsWF_save hwf ?_ hok
          exact hwf rating (memOfFind hr)
        · exact Except.noConfusion hok
    | reportRatingOp rid reason =>
      simp only [applyOp] at hok
      unfold reportRating at hok
      cases hr : ratingById st.ratings rid with
      | none =>
        rw [hr] at hok
        exact Except.noConfusion hok
      | some rating =>
        rw [hr] at hok
        simp only at hok
        repeat
          first
          | exact Except.noConfusion hok
          | (refine ratingsWF_save hwf ?_ hok
             exact hwf rating (memOfFind hr))
          | split at hok
    | respondToRatingOp uid role rid message now =>
      simp only [applyOp] at hok
      unfold respondToRating at hok
      cases hr : ratingById st.ratings rid with
      | none =>
        rw [hr] at hok
        exact Except.noConfusion hok
      | some rating =>
        rw [hr] at hok
        simp only at hok
        repeat
          first
          | exact Except.noConfusion hok
          | (refine ratingsWF_save hwf ?_ hok
             exact hwf rating (memOfFind hr))
          | split at hok
  · intro st r h
    simp [createRating, h]

/-- C9 witness: retracting the only stored rating keeps the invariant, and
storing a rating with neither target set is rejected. -/
theorem ratingTargetInvariantWitness :
    (ratingsWF stOne ∧
      applyOp stOne (MarketOp.deleteRatingOp 9 Role.user 6) = Except.ok stOneDel ∧
      ratingsWF stOneDel)
    ∧ (ratingTargetOk rBad = false ∧
        createRating stOne rBad = Except.error RatingError.invalidTarget) :=
  ⟨⟨by unfold ratingsWF ratingWF; decide, by decide,
      ratingTargetInvariant.1 stOne (MarketOp.deleteRatingOp 9 Role.user 6) stOneDel
        (by unfold ratingsWF ratingWF; decide) (by decide)⟩,
    ⟨by decide, ratingTargetInvariant.2 stOne rBad (by decide)⟩⟩

/-- C8: deleteRating fails with the not-authorized error unless the actor
is the original reviewer or an admin; on success the record is never
deleted: the store keeps the same number of rating documents, the record
stays retrievable by id with only its isActive flag cleared (response and
all other history intact), and the referenced vendor or waiter profile is
rewritten with the recomputed aggregates. -/
theorem retractionSoftDelete :
    (∀ (st : MarketState) (actorId : Nat) (role : Role) (ratingId : Nat) (r : Rating),
      ratingById st.ratings ratingId = some r →
      role ≠ Role.admin → r.reviewer ≠ actorId →
        deleteRating st actorId role ratingId = Except.error RatingError.notAuthorized)
    ∧ (∀ (st : MarketState) (actorId : Nat) (role : Role) (ratingId : Nat) (r : Rating)
        (st2 : MarketState),
        ratingById st.ratings ratingId = some r →
        deleteRating st actorId role ratingId = Except.ok st2 →
          st2.ratings.length = st.ratings.length ∧
          ratingById st2.ratings ratingId = some { r with isActive := false } ∧
          (∀ (vid : Nat) (v : Vendor), r.vendor = some vid →
            vendorById st.vendors vid = some v →
              vendorById st2.vendors vid = some (Vendor.updateRating st2.ratings v)) ∧
          (∀ (wid : Nat) (w : Waiter), r.waiter = some wid →
            waiterById st.waiters wid = some w →
              waiterById st2.waiters wid = some (Waiter.updateRating st2.ratings w))) := by
  constructor
  · intro st actorId role ratingId r hr hrole hrev
    simp only [deleteRating, hr]
    rw [if_neg (fun hc => hc.elim hrole hrev)]
  · intro st actorId role ratingId r st2 hr hok
    have hrid : r.id = ratingId := findId_eq Rating.id hr
    simp only [deleteRating, hr] at hok
    split at hok
    · unfold saveRating at hok
      split at hok
      · cases hok
        refine ⟨?_, ?_, ?_, ?_⟩
        · rw [recomputeTargets_ratings]
          exact List.length_map _ _
        · rw [recomputeTargets_ratings]
          exact findKeyReplace Rating.id st.ratings ratingId r _ hr hrid
        · intro vid v hvid hv
          simp only [recomputeTargets, hvid, hv]
          exact findKeyReplace Vendor.id st.vendors vid v _ hv
            (by rw [vendorUpdate_id]; exact findId_eq Vendor.id hv)
        · intro wid w hwid hw
          simp only [recomputeTargets, hwid, hw]
          exact findKeyReplace Waiter.id st.waiters wid w _ hw
            (by rw [waiterUpdate_id]; exact findId_eq Waiter.id hw)
      · exact Except.noConfusion hok
    · exact Except.noConfusion hok

/-- C8 witness: the reviewer retracts their rating; the record survives
with its flag cleared and stays retrievable. -/
theorem retractionSoftDeleteWitness :
    ratingById stOne.ratings 6 = some rGood ∧
    deleteRating stOne 9 Role.user 6 = Except.ok stOneDel ∧
    (stOneDel.ratings.length = stOne.ratings.length ∧
      ratingById stOneDel.ratings 6 = some { rGood with isActive := false } ∧
      (∀ (vid : Nat) (v : Vendor), rGood.vendor = some vid →
        vendorById stOne.vendors vid = some v →
          vendorById stOneDel.vendors vid = some (Vendor.updateRating stOneDel.ratings v)) ∧
      (∀ (wid : Nat) (w : Waiter), rGood.waiter = some wid →
        waiterById stOne.waiters wid = some w →
          waiterById stOneDel.waiters wid = some (Waiter.updateRating stOneDel.ratings w))) :=
  ⟨by decide, by decide,
    retractionSoftDelete.2 stOne 9 Role.user 6 rGood stOneDel (by decide) (by decide)⟩

/-- C3 counterexample.  First, the duplicate check is not restricted to
active ratings: in stC6c the only rating for the (reviewer 9, vendor 1,
order 4) triple is retracted, yet a new submission fails with the duplicate
error.  Second, the waiter-side eligibility check does not tie the completed
job to the reviewer: in stWB no vendor profile of user 9 exists (the job
belongs to vendor profile 77), yet rateWaiter succeeds. -/
theorem ratingSubmissionCex :
    (rateVendor stC6c 9 1 payQ 7 = Except.error RatingError.duplicateRating ∧
      stC6c.ratings.any (fun r => r.isActive) = false)
    ∧ (succeeds (rateWaiter stWB 9 none 1 payQ 4) = true ∧
        stWB.jobs.any
          (fun j => stWB.vendors.any (fun v => decide (v.user = 9 ∧ j.vendor = v.id))) =
          false) := by
  refine ⟨⟨by decide, by decide⟩, by decide, by decide⟩

/-- C3 as amended: with the target found, submission fails with NotEligible
when no qualifying completed transaction is found (for a vendor target, a
completed order of the reviewer with that vendor; for a waiter target, any
completed job of the waiter matching the optional vendor-profile condition,
which the live route leaves unset); it fails with DuplicateRating exactly
when any rating, active or not, exists for the (reviewer, target, found
transaction) triple; and on success it appends the new rating, sets the
isRated flag of the found transaction, and rewrites the target profile with the
aggregates recomputed over the stored ratings including the new one. -/
theorem ratingSubmissionChecks :
    (∀ (st : MarketState) (reviewerId vendorId : Nat) (p : RatingPayload) (newId : Nat)
      (v : Vendor),
      vendorById st.vendors vendorId = some v →
      findCompletedOrder st.orders reviewerId vendorId = none →
        rateVendor st reviewerId vendorId p newId = Except.error RatingError.notEligible)
    ∧ (∀ (st : MarketState) (reviewerId vendorId : Nat) (p : RatingPayload) (newId : Nat)
        (v : Vendor) (o : Order),
        vendorById st.vendors vendorId = some v →
        findCompletedOrder st.orders reviewerId vendorId = some o →
        duplicateVendorRating st.ratings reviewerId vendorId o.id = true →
          rateVendor st reviewerId vendorId p newId =
            Except.error RatingError.duplicateRating)
    ∧ (∀ (st : MarketState) (reviewerId vendorId : Nat) (p : RatingPayload) (newId : Nat)
        (v : Vendor) (o : Order),
        vendorById st.vendors vendorId = some v →
        findCompletedOrder st.orders reviewerId vendorId = some o →
        duplicateVendorRating st.ratings reviewerId vendorId o.id = false →
          succeeds (rateVendor st reviewerId vendorId p newId) = true)
    ∧ (∀ (st : MarketState) (reviewerId vendorId : Nat) (p : RatingPayload) (newId : Nat)
        (v : Vendor) (o : Order) (st2 : MarketState),
        vendorById st.vendors vendorId = some v →
        findCompletedOrder st.orders reviewerId vendorId = some o →
        duplicateVendorRating st.ratings reviewerId vendorId o.id = false →
        orderById st.orders o.id = some o →
        rateVendor st reviewerId vendorId p newId = Except.ok st2 →
          st2.ratings = st.ratings ++ [mkVendorRating reviewerId vendorId o.id newId p] ∧
          orderById st2.orders o.id = some { o with isRated := true } ∧
          vendorById st2.vendors vendorId = some (Vendor.updateRating st2.ratings v))
    ∧ (∀ (st : MarketState) (reviewerId : Nat) (vp : Option Nat) (waiterId : Nat)
        (p : RatingPayload) (newId : Nat) (w : Waiter),
        waiterById st.waiters waiterId = some w →
        findCompletedJob st.jobs waiterId vp = none →
          rateWaiter st reviewerId vp waiterId p newId =
            Except.error RatingError.notEligible)
    ∧ (∀ (st : MarketState) (reviewerId : Nat) (vp : Option Nat) (waiterId : Nat)
        (p : RatingPayload) (newId : Nat) (w : Waiter) (j : Job),
        waiterById st.waiters waiterId = some w →
        findCompletedJob st.jobs waiterId vp = some j →
        duplicateWaiterRating st.ratings reviewerId waiterId j.id = true →
          rateWaiter st reviewerId vp waiterId p newId =
            Except.error RatingError.duplicateRating)
    ∧ (∀ (st : MarketState) (reviewerId : Nat) (vp : Option Nat) (waiterId : Nat)
        (p : RatingPayload) (newId : Nat) (w : Waiter) (j : Job) (st2 : MarketState),
        waiterById st.waiters waiterId = some w →
        findCompletedJob st.jobs waiterId vp = some j →
        duplicateWaiterRating st.ratings reviewerId waiterId j.id = false →
        jobById st.jobs j.id = some j →
        rateWaiter st reviewerId vp waiterId p newId = Except.ok st2 →
          st2.ratings = st.ratings ++ [mkWaiterRating reviewerId waiterId j.id newId p] ∧
          jobById st2.jobs j.id = some { j with isRated := true } ∧
          waiterById st2.waiters waiterId = some (Waiter.updateRating st2.ratings w)) := by
  refine ⟨?_, ?_, ?_, ?_, ?_, ?_, ?_⟩
  · intro st reviewerId vendorId p newId v hv ho
    simp [rateVendor, hv, ho]
  · intro st reviewerId vendorId p newId v o hv ho hdup
    simp [rateVendor, hv, ho, hdup]
  · intro st reviewerId vendorId p newId v o hv ho hdup
    simp only [rateVendor, hv, ho]
    rw [if_neg (by simp [hdup])]
    rfl
  · intro st reviewerId vendorId p newId v o st2 hv ho hdup horder hok
    simp only [rateVendor, hv, ho] at hok
    rw [if_neg (by simp [hdup])] at hok
    rw [show createRating st (mkVendorRating reviewerId vendorId o.id newId p) =
        Except.ok
          (recomputeTargets
            { st with
                ratings := st.ratings ++ [mkVendorRating reviewerId vendorId o.id newId p] }
            (mkVendorRating reviewerId vendorId o.id newId p)) from by
      unfold createRating
      exact if_pos rfl] at hok
    simp only at hok
    cases hok
    refine ⟨rfl, ?_, ?_⟩
    · exact findKeyMap Order.id (fun x => { x with isRated := true }) st.orders o.id o
        horder (fun x => rfl)
    · simp only [recomputeTargets, mkVendorRating, hv]
      exact findKeyReplace Vendor.id st.vendors vendorId v _ hv
        (by rw [vendorUpdate_id]; exact findId_eq Vendor.id hv)
  · intro st reviewerId vp waiterId p newId w hw hj
    simp [rateWaiter, hw, hj]
  · intro st reviewerId vp waiterId p newId w j hw hj hdup
    simp [rateWaiter, hw, hj, hdup]
  · intro st reviewerId vp waiterId p newId w j st2 hw hj hdup hjob hok
    simp only [rateWaiter, hw, hj] at hok
    rw [if_neg (by simp [hdup])] at hok
    rw [show createRating st (mkWaiterRating reviewerId waiterId j.id newId p) =
        Except.ok
          (recomputeTargets
            { st with
                ratings := st.ratings ++ [mkWaiterRating reviewerId waiterId j.id newId p] }
            (mkWaiterRating reviewerId waiterId j.id newId p)) from by
      unfold createRating
      exact if_pos rfl] at hok
    simp only at hok
    cases hok
    refine ⟨rfl, ?_, ?_⟩
    · exact findKeyMap Job.id (fun x => { x with isRated := true }) st.jobs j.id j
        hjob (fun x => rfl)
    · simp only [recomputeTargets, mkWaiterRating, hw]
      exact findKeyReplace Waiter.id st.waiters waiterId w _ hw
        (by rw [waiterUpdate_id]; exact findId_eq Waiter.id hw)

/-- C3 witness: with vendor 1 present and no completed order of user 9, the
submission is rejected as not eligible; in stC6c, where the triple has only
a retracted rating, the submission is rejected as a duplicate. -/
theorem ratingSubmissionChecksWitness :
    (vendorById stV0.vendors 1 = some vQ ∧
      findCompletedOrder stV0.orders 9 1 = none ∧
      rateVendor stV0 9 1 payQ 1 = Except.error RatingError.notEligible)
    ∧ (vendorById stC6c.vendors 1 = some { vQ with averageRating := 5, totalRatings := 1 } ∧
        findCompletedOrder stC6c.orders 9 1 = some { oQ with isRated := true } ∧
        duplicateVendorRating stC6c.ratings 9 1 ({ oQ with isRated := true } : Order).id = true ∧
        rateVendor stC6c 9 1 payQ 7 = Except.error RatingError.duplicateRating) :=
  ⟨⟨by decide, by decide,
      ratingSubmissionChecks.1 stV0 9 1 payQ 1 vQ (by decide) (by decide)⟩,
    ⟨by decide, by decide, by decide,
      ratingSubmissionChecks.2.1 stC6c 9 1 payQ 7
        { vQ with averageRating := 5, totalRatings := 1 } { oQ with isRated := true }
        (by decide) (by decide) (by decide)⟩⟩

theorem rateVendor_stC6 : rateVendor stC6 9 1 payQ 6 = Except.ok stC6b := by
  simp +decide [rateVendor, stC6, stC6b, vQ, oQ, rQ, payQ, mkVendorRating, vendorById,
    findCompletedOrder, duplicateVendorRating, createRating, ratingTargetOk,
    recomputeTargets, setVendor, Vendor.updateRating, vendorMatches, meanScore]
  exact ceilTenths_eq_of _ _ 50 (by norm_num) (by norm_num) (by norm_num)

theorem deleteRating_stC6b : deleteRating stC6b 9 Role.user 6 = Except.ok stC6c := by
  simp +decide [deleteRating, saveRating, stC6b, stC6c, vQ, oQ, rQ, rQoff, payQ, mkVendorRating,
    ratingById, vendorById, createRating, ratingTargetOk,
    recomputeTargets, setVendor, Vendor.updateRating, vendorMatches, meanScore]
  exact ceilTenths_eq_of _ _ 50 (by norm_num) (by norm_num) (by norm_num)

/-- C6 counterexample: the reviewer rates vendor 1 for completed order 4,
retracts the rating (a soft delete that leaves the record stored with
isActive false), and then a new submission for the exact same triple fails
with the duplicate error instead of succeeding. -/
theorem retractResubmitCex :
    rateVendor stC6 9 1 payQ 6 = Except.ok stC6b ∧
    deleteRating stC6b 9 Role.user 6 = Except.ok stC6c ∧
    ratingById stC6c.ratings 6 = some rQoff ∧
    rQoff.isActive = false ∧
    rateVendor stC6c 9 1 payQ 7 = Except.error RatingError.duplicateRating :=
  ⟨rateVendor_stC6, deleteRating_stC6b, by decide, rfl, by decide⟩

/-- C6 as amended: after a reviewer retracts their rating for a (reviewer,
vendor, order) triple, a new submission for that exact triple still fails
with DuplicateRating: the duplicate lookup matches any stored rating for the
triple regardless of isActive, so the soft-deleted rating keeps blocking
resubmission. -/
theorem retractedStillBlocks :
    ∀ (st : MarketState) (reviewerId vendorId : Nat) (p : RatingPayload) (newId : Nat)
      (v : Vendor) (o : Order) (r : Rating),
      vendorById st.vendors vendorId = some v →
      findCompletedOrder st.orders reviewerId vendorId = some o →
      r ∈ st.ratings → r.reviewer = reviewerId → r.vendor = some vendorId →
      r.order = some o.id → r.isActive = false →
        rateVendor st reviewerId vendorId p newId =
          Except.error RatingError.duplicateRating := by
  intro st reviewerId vendorId p newId v o r hv ho hmem hrev hvend hord hact
  have hdup : duplicateVendorRating st.ratings reviewerId vendorId o.id = true := by
    unfold duplicateVendorRating
    rw [List.any_eq_true]
    exact ⟨r, hmem, decide_eq_true ⟨hrev, hvend, hord⟩⟩
  simp [rateVendor, hv, ho, hdup]

/-- C6 witness: in stC6c the retracted rating rQoff blocks the resubmission
for its triple. -/
theorem retractedStillBlocksWitness :
    (rQoff ∈ stC6c.ratings ∧ rQoff.isActive = false) ∧
    rateVendor stC6c 9 1 payQ 7 = Except.error RatingError.duplicateRating :=
  ⟨⟨by decide, rfl⟩,
    retractedStillBlocks stC6c 9 1 payQ 7
      { vQ with averageRating := 5, totalRatings := 1 } { oQ with isRated := true } rQoff
      (by decide) (by decide) (by decide) rfl rfl rfl rfl⟩

end PlentyEvents
